import Mathlib

/-
  Shallow embedding of src/config/security.js (AJK-Cleaning).
  The module exposes rate-limit policy configurations, a CORS origin
  callback, a recursive input sanitizer and a WebSocket origin validator.
-/

namespace AJK

/-! ## JavaScript string primitives -/

/-- The whitespace set of JavaScript string trimming and of parseInt
(WhiteSpace and LineTerminator code points). -/
def jsIsWhite (c : Char) : Bool :=
  c = ' ' || c = '\t' || c = '\n' || c = '\x0b' || c = '\x0c' || c = '\r' ||
  c = '\u00a0' || c = '\u1680' || c = '\u2000' || c = '\u2001' ||
  c = '\u2002' || c = '\u2003' || c = '\u2004' || c = '\u2005' ||
  c = '\u2006' || c = '\u2007' || c = '\u2008' || c = '\u2009' ||
  c = '\u200a' || c = '\u2028' || c = '\u2029' || c = '\u202f' ||
  c = '\u205f' || c = '\u3000' || c = '\ufeff'

/-- Drop leading JavaScript whitespace from a character list. -/
def dropWhite : List Char → List Char
  | [] => []
  | c :: t => if jsIsWhite c then dropWhite t else c :: t

/-- JavaScript `String.prototype.trim`: remove leading and trailing
whitespace. -/
def jsTrimList (l : List Char) : List Char :=
  ((dropWhite ((dropWhite l).reverse)).reverse)

/-- JavaScript trim on strings. -/
def jsTrim (s : String) : String :=
  String.mk (jsTrimList s.toList)

/-- Character-list version of JavaScript `startsWith`. -/
def startsWithList : List Char → List Char → Bool
  | [], _ => true
  | _ :: _, [] => false
  | a :: as, b :: bs => a = b && startsWithList as bs

/-- JavaScript `s.startsWith(p)`. -/
def strStartsWith (s p : String) : Bool :=
  startsWithList p.toList s.toList

/-- Does `needle` occur contiguously inside the haystack list? -/
def containsSubAux (needle : List Char) : List Char → Bool
  | [] => needle.isEmpty
  | c :: t => startsWithList needle (c :: t) || containsSubAux needle t

/-- JavaScript `s.includes(needle)`. -/
def strContains (s needle : String) : Bool :=
  containsSubAux needle.toList s.toList

/-- JavaScript `str.replace(/[<>]/g, '')`: remove every occurrence of
the characters `<` and `>`. -/
def stripAngle (l : List Char) : List Char :=
  l.filter (fun c => decide (c ≠ '<') && decide (c ≠ '>'))

/-- The transformation `obj.trim().replace(/[<>]/g, '')` applied to a
string leaf by the sanitizer. -/
def jsSanitizeString (s : String) : String :=
  String.mk (stripAngle (jsTrimList s.toList))

/-! ## Environment -/

/-- The slice of `process.env` read by security.js. `none` models an
unset variable (`undefined`). -/
structure Env where
  nodeEnv : Option String
  allowedOrigins : Option String
  maxLoginAttempts : Option String
deriving Repr, DecidableEq

/-- `const isProduction = process.env.NODE_ENV === 'production';` -/
def isProduction (e : Env) : Bool :=
  e.nodeEnv = some "production"

/-! ## Origin validation -/

/-- Default allow-list literal inside `corsConfig.origin`
(security.js lines 144-151). -/
def corsDefaultOrigins : List String :=
  [ "https://ajk-cleaning.onrender.com"
  , "http://localhost:3000"
  , "http://127.0.0.1:3000"
  , "http://localhost:3001"
  , "http://127.0.0.1:3001"
  , "https://www.ajkcleaners.de" ]

/-- Default allow-list literal inside `validateWebSocketOrigin`
(security.js lines 216-223); note it lacks `https://www.ajkcleaners.de`. -/
def wsDefaultOrigins : List String :=
  [ "https://ajk-cleaning.onrender.com"
  , "http://localhost:3000"
  , "http://127.0.0.1:3000"
  , "http://localhost:3001"
  , "http://127.0.0.1:3001" ]

/-- `process.env.ALLOWED_ORIGINS ? process.env.ALLOWED_ORIGINS.split(',')
.map(o => o.trim()) : dflt` — the environment value is used when truthy
(set and non-empty), otherwise the default literal. -/
def resolveAllowList (envVal : Option String) (dflt : List String) : List String :=
  match envVal with
  | none => dflt
  | some s => if s = "" then dflt else (s.splitOn ",").map jsTrim

/-- `corsConfig.origin` as a decision function: `callback(null, true)`
becomes `true`, `callback(new Error(...))` becomes `false`. The origin
argument is `none` when absent; JavaScript tests `!origin`, which is
also true for the empty string. -/
def corsOriginAllowed (e : Env) : Option String → Bool
  | none => true
  | some o =>
    if o = "" then true
    else
      (resolveAllowList e.allowedOrigins corsDefaultOrigins).contains o ||
        (!isProduction e && strContains o "localhost")

/-- `validateWebSocketOrigin` (security.js lines 213-228). -/
def validateWebSocketOrigin (e : Env) : Option String → Bool
  | none => true
  | some o =>
    if o = "" then true
    else
      (resolveAllowList e.allowedOrigins wsDefaultOrigins).contains o ||
        (!isProduction e && strContains o "localhost")

/-- The origin decision as the specification words it: absent origin is
allowed; otherwise allowed iff the origin is a literal member of the
allow-list, or devMode holds and the origin contains "localhost". -/
def specOriginAllowed (allowList : List String) (devMode : Bool) : Option String → Bool
  | none => true
  | some o => allowList.contains o || (devMode && strContains o "localhost")

/-- The amended origin decision: an absent or empty origin is allowed;
otherwise allowed iff a literal member of the allow-list, or devMode
holds and the origin contains "localhost". -/
def specOriginAllowedAmended (allowList : List String) (devMode : Bool) : Option String → Bool
  | none => true
  | some o =>
    if o = "" then true
    else allowList.contains o || (devMode && strContains o "localhost")

/-! ## Input sanitizer (acyclic value trees)

`sanitizeInput` recursively applies `sanitize` to `req.body`, `req.query`
and `req.params`. `sanitize` rewrites string values through
`trim().replace(/[<>]/g, '')`, walks objects and arrays field by field
(`for (const key in obj)` enumerates array indices and object keys
alike), and returns every other value unchanged. -/

/-- A JSON-like JavaScript value tree. -/
inductive Js where
  | str (s : String)
  | num (n : Int)
  | bool (b : Bool)
  | null
  | arr (elems : List Js)
  | obj (fields : List (String × Js))

mutual

/-- The recursive `sanitize` closure of `sanitizeInput`
(security.js lines 187-197), on acyclic value trees. -/
def sanitize : Js → Js
  | .str s => .str (jsSanitizeString s)
  | .num n => .num n
  | .bool b => .bool b
  | .null => .null
  | .arr es => .arr (sanitizeList es)
  | .obj fs => .obj (sanitizeFields fs)

/-- `sanitize` applied to each element of an array (the
`for (const key in obj)` loop over array indices). -/
def sanitizeList : List Js → List Js
  | [] => []
  | e :: t => sanitize e :: sanitizeList t

/-- `sanitize` applied to each field value of an object, keys untouched
(`obj[key] = sanitize(obj[key])`). -/
def sanitizeFields : List (String × Js) → List (String × Js)
  | [] => []
  | (k, v) :: t => (k, sanitize v) :: sanitizeFields t

end

/-- A string contains neither `<` nor `>`. -/
def cleanLeaf (s : String) : Bool :=
  s.toList.all (fun c => decide (c ≠ '<') && decide (c ≠ '>'))

mutual

/-- Every string leaf of the tree is free of `<` and `>`. -/
def allClean : Js → Bool
  | .str s => cleanLeaf s
  | .num _ => true
  | .bool _ => true
  | .null => true
  | .arr es => allCleanList es
  | .obj fs => allCleanFields fs

/-- `allClean` over array elements. -/
def allCleanList : List Js → Bool
  | [] => true
  | e :: t => allClean e && allCleanList t

/-- `allClean` over object field values. -/
def allCleanFields : List (String × Js) → Bool
  | [] => true
  | (_, v) :: t => allClean v && allCleanFields t

end

/-! ## Sanitizer on cyclic object graphs

JavaScript objects are references, so `req.body` may be cyclic
(`obj.self = obj`). The recursion of `sanitize` follows each object
field with no visited-set; we model values whose object positions are
references into a heap, and the recursion with explicit fuel: `none`
means the recursion has not completed within the given depth. -/

/-- A JavaScript value whose object positions are heap references. -/
inductive JsRef where
  | str (s : String)
  | num (n : Int)
  | bool (b : Bool)
  | null
  | ref (addr : Nat)
deriving Repr, DecidableEq

/-- A heap: each address may hold an object, a list of fields. -/
def Heap : Type := Nat → Option (List (String × JsRef))

mutual

/-- Does the recursion of `sanitize` over the reference graph complete
within `fuel` nested calls? Mirrors the call structure of
security.js lines 187-197: scalars return at once, an object recurses
into every field value. -/
def visit (h : Heap) : Nat → JsRef → Bool
  | 0, _ => false
  | fuel + 1, v =>
    match v with
    | .ref a =>
      match h a with
      | none => true
      | some fields => visitFields h fuel fields
    | _ => true

/-- `visit` over the fields of one object. -/
def visitFields (h : Heap) : Nat → List (String × JsRef) → Bool
  | _, [] => true
  | fuel, (_, v) :: t => visit h fuel v && visitFields h fuel t

end

/-- The one-object heap of `const o = {}; o.self = o;`. -/
def selfHeap : Heap :=
  fun a => if a = 0 then some [("self", JsRef.ref 0)] else none

/-! ## Rate-limit policies -/

/-- The session slice the skip predicates read. -/
structure SessionData where
  authenticated : Bool
deriving Repr, DecidableEq

/-- The request slice the skip predicates read: `req.path` and
`req.session?.authenticated`. -/
structure ReqCtx where
  path : String
  session : Option SessionData
deriving Repr, DecidableEq

/-- `req.session?.authenticated` as a boolean: an absent session is
falsy. -/
def sessionAuth (r : ReqCtx) : Bool :=
  match r.session with
  | none => false
  | some s => s.authenticated

/-- The `skip` closure of the api limiter:
`req.path.startsWith('/api/admin') && req.session?.authenticated`. -/
def apiSkip (r : ReqCtx) : Bool :=
  strStartsWith r.path "/api/admin" && sessionAuth r

/-- The `skip` closure of the login limiter:
`req.session?.authenticated`. -/
def loginSkip (r : ReqCtx) : Bool :=
  sessionAuth r

/-- Numeric value of a character as a digit up to base 16, `none` when
it is no such digit. -/
def hexVal (c : Char) : Option Nat :=
  if '0' ≤ c && c ≤ '9' then some (c.toNat - 48)
  else if 'a' ≤ c && c ≤ 'f' then some (c.toNat - 87)
  else if 'A' ≤ c && c ≤ 'F' then some (c.toNat - 55)
  else none

/-- Parse the longest leading run of digits of the given radix; `none`
when there is no digit at all (parseInt yields NaN). -/
def parseRadix (radix : Nat) (l : List Char) : Option Nat :=
  let ds := l.takeWhile (fun c => (hexVal c).elim false (fun v => v < radix))
  if ds.isEmpty then none
  else some (ds.foldl (fun acc c => acc * radix + (hexVal c).getD 0) 0)

/-- JavaScript `parseInt(s)` with no radix argument: skip whitespace,
optional sign, `0x`/`0X` selects base 16, else base 10; `none` models
NaN. -/
def jsParseInt (s : String) : Option Int :=
  let l := dropWhite s.toList
  let sgn : Int := match l with | '-' :: _ => -1 | _ => 1
  let l1 := match l with
    | '-' :: t => t
    | '+' :: t => t
    | _ => l
  let body := match l1 with
    | '0' :: 'x' :: t => parseRadix 16 t
    | '0' :: 'X' :: t => parseRadix 16 t
    | _ => parseRadix 10 l1
  body.map (fun n => sgn * (n : Int))

/-- `parseInt(process.env.MAX_LOGIN_ATTEMPTS) || 5`: NaN (including the
unset case) and 0 are falsy and fall back to 5. -/
def loginMax (e : Env) : Int :=
  match e.maxLoginAttempts with
  | none => 5
  | some s =>
    match jsParseInt s with
    | none => 5
    | some n => if n = 0 then 5 else n

/-- A JSON response body as produced by the rejection handlers: which
fields are present, and with what values. -/
structure JsonBody where
  error : Option String
  retryAfter : Option String
  success : Option Bool
deriving Repr, DecidableEq

/-- The `res.status(...).json(...)` pair a rejection handler produces. -/
structure HandlerResponse where
  status : Nat
  body : JsonBody
deriving Repr, DecidableEq

/-- The api limiter's `handler` response (security.js lines 75-85). -/
def apiHandler : HandlerResponse :=
  { status := 429
  , body :=
    { error := some "Too many requests from this IP, please try again later."
    , retryAfter := some "15 minutes"
    , success := none } }

/-- The login limiter's `handler` response (security.js lines 102-112). -/
def loginHandler : HandlerResponse :=
  { status := 429
  , body :=
    { error := some "Too many login attempts, please try again later."
    , retryAfter := some "15 minutes"
    , success := none } }

/-- The form limiter's `handler` response (security.js lines 125-134). -/
def formHandler : HandlerResponse :=
  { status := 429
  , body :=
    { error := some "Too many form submissions, please wait before submitting again."
    , retryAfter := none
    , success := some false } }

/-- One rate-limit policy configuration as passed to `rateLimit(...)`. -/
structure RateLimitPolicy where
  windowMs : Nat
  maxReq : Int
  skip : Option (ReqCtx → Bool)
  handler : HandlerResponse

/-- `rateLimitConfigs.api` (security.js lines 62-86). -/
def apiPolicy : RateLimitPolicy :=
  { windowMs := 15 * 60 * 1000
  , maxReq := 100
  , skip := some apiSkip
  , handler := apiHandler }

/-- `rateLimitConfigs.login` (security.js lines 89-113); its `max`
depends on the environment. -/
def loginPolicy (e : Env) : RateLimitPolicy :=
  { windowMs := 15 * 60 * 1000
  , maxReq := loginMax e
  , skip := some loginSkip
  , handler := loginHandler }

/-- `rateLimitConfigs.form` (security.js lines 116-135); it passes no
`skip` option. -/
def formPolicy : RateLimitPolicy :=
  { windowMs := 60 * 1000
  , maxReq := 3
  , skip := none
  , handler := formHandler }

/-! ## Helper lemmas -/

theorem all_filter_self (p : Char → Bool) (l : List Char) :
    (l.filter p).all p = true := by
  induction l with
  | nil => rfl
  | cons c t ih =>
    by_cases h : p c = true
    · simp [List.filter_cons, h, ih]
    · simp [List.filter_cons, h, ih]

theorem cleanLeaf_jsSanitizeString (s : String) :
    cleanLeaf (jsSanitizeString s) = true := by
  unfold cleanLeaf jsSanitizeString stripAngle
  exact all_filter_self _ _

mutual

theorem allClean_sanitize : ∀ v : Js, allClean (sanitize v) = true
  | .str s => cleanLeaf_jsSanitizeString s
  | .num _ => rfl
  | .bool _ => rfl
  | .null => rfl
  | .arr es => allCleanList_sanitizeList es
  | .obj fs => allCleanFields_sanitizeFields fs

theorem allCleanList_sanitizeList : ∀ l : List Js, allCleanList (sanitizeList l) = true
  | [] => rfl
  | e :: t => by
    simp [sanitizeList, allCleanList, allClean_sanitize e, allCleanList_sanitizeList t]

theorem allCleanFields_sanitizeFields :
    ∀ fs : List (String × Js), allCleanFields (sanitizeFields fs) = true
  | [] => rfl
  | (k, v) :: t => by
    simp [sanitizeFields, allCleanFields, allClean_sanitize v, allCleanFields_sanitizeFields t]

end

theorem sanitizeList_eq_map : ∀ l : List Js, sanitizeList l = l.map sanitize
  | [] => rfl
  | e :: t => by simp [sanitizeList, List.map_cons, sanitizeList_eq_map t]

theorem sanitizeFields_eq_map :
    ∀ fs : List (String × Js),
      sanitizeFields fs = fs.map (fun kv => (kv.1, sanitize kv.2))
  | [] => rfl
  | (k, v) :: t => by simp [sanitizeFields, List.map_cons, sanitizeFields_eq_map t]

/-! ## Claim theorems: sanitizer -/

/-- C3: the sanitizer returns a tree with no string leaf containing
`<` or `>`; each string leaf is first trimmed and then has every
occurrence of `<` and `>` removed; the concrete input
`\x7b"name": "  <b>hi</b>  "\x7d` yields `\x7b"name": "bhi/b"\x7d`. -/
theorem sanitize_clean_and_leaf :
    (∀ v : Js, allClean (sanitize v) = true)
    ∧ (∀ s : String,
        sanitize (Js.str s) = Js.str (String.mk (stripAngle (jsTrimList s.toList))))
    ∧ sanitize (Js.obj [("name", Js.str "  <b>hi</b>  ")])
        = Js.obj [("name", Js.str "bhi/b")] :=
  ⟨allClean_sanitize, fun _ => rfl, rfl⟩

/-- C8: the sanitizer changes only string leaves: object keys are kept
exactly (no key added, removed or renamed), arrays keep their length and
elementwise order, and numbers, booleans and null are returned
unchanged. -/
theorem sanitize_frame :
    (∀ fs : List (String × Js),
        (sanitizeFields fs).map Prod.fst = fs.map Prod.fst)
    ∧ (∀ fs : List (String × Js), sanitize (Js.obj fs) = Js.obj (sanitizeFields fs))
    ∧ (∀ es : List Js, sanitizeList es = es.map sanitize)
    ∧ (∀ es : List Js, (sanitizeList es).length = es.length)
    ∧ (∀ es : List Js, sanitize (Js.arr es) = Js.arr (sanitizeList es))
    ∧ (∀ n : Int, sanitize (Js.num n) = Js.num n)
    ∧ (∀ b : Bool, sanitize (Js.bool b) = Js.bool b)
    ∧ sanitize Js.null = Js.null := by
  refine ⟨?_, fun _ => rfl, sanitizeList_eq_map, ?_, fun _ => rfl,
    fun _ => rfl, fun _ => rfl, rfl⟩
  · intro fs
    rw [sanitizeFields_eq_map, List.map_map]
    rfl
  · intro es
    rw [sanitizeList_eq_map, List.length_map]

/-- C4: claimed termination of the sanitizer on cyclic structures fails:
on the self-referential object `o.self = o`, the recursion of
`sanitize` never completes, at any recursion depth. -/
theorem sanitize_selfref_diverges :
    ∀ fuel : Nat, visit selfHeap fuel (JsRef.ref 0) = false := by
  intro fuel
  induction fuel with
  | zero => simp [visit]
  | succ n ih =>
    rw [visit]
    simp [selfHeap, visitFields, ih]

/-! ## Claim theorems: origin validation -/

theorem mem_default_iff (o : String) (h : o ≠ "https://www.ajkcleaners.de") :
    o ∈ corsDefaultOrigins ↔ o ∈ wsDefaultOrigins := by
  simp only [corsDefaultOrigins, wsDefaultOrigins, List.mem_cons, List.not_mem_nil,
    or_false]
  tauto

/-- C1 counterexample: with `ALLOWED_ORIGINS` unset, the two call sites
resolve different default allow-lists: the origin
`https://www.ajkcleaners.de` is accepted by the CORS callback and
rejected by `validateWebSocketOrigin`. -/
theorem cors_ws_default_disagree :
    corsOriginAllowed (Env.mk (some "production") none none)
        (some "https://www.ajkcleaners.de") = true
    ∧ validateWebSocketOrigin (Env.mk (some "production") none none)
        (some "https://www.ajkcleaners.de") = false :=
  ⟨rfl, rfl⟩

/-- C1 amended: the CORS decision and the WebSocket decision agree for
every origin other than `https://www.ajkcleaners.de`, and for every
origin whenever `ALLOWED_ORIGINS` is set to a non-empty string; on
`https://www.ajkcleaners.de` with `ALLOWED_ORIGINS` unset they differ. -/
theorem cors_ws_agreement_amended :
    ∀ (e : Env) (o : Option String),
      (o ≠ some "https://www.ajkcleaners.de" →
        corsOriginAllowed e o = validateWebSocketOrigin e o)
      ∧ (∀ s : String, e.allowedOrigins = some s → s ≠ "" →
          corsOriginAllowed e o = validateWebSocketOrigin e o) := by
  intro e o
  constructor
  · intro ho
    cases o with
    | none => rfl
    | some s =>
      by_cases hs : s = ""
      · simp [corsOriginAllowed, validateWebSocketOrigin, hs]
      · have hne : s ≠ "https://www.ajkcleaners.de" := fun he => ho (by rw [he])
        simp only [corsOriginAllowed, validateWebSocketOrigin, if_neg hs]
        cases hA : e.allowedOrigins with
        | none => simp [resolveAllowList, mem_default_iff s hne]
        | some v =>
          by_cases hv : v = ""
          · simp [resolveAllowList, hv, mem_default_iff s hne]
          · simp [resolveAllowList, hv]
  · intro s hs hne
    cases o with
    | none => rfl
    | some o' =>
      simp [corsOriginAllowed, validateWebSocketOrigin, resolveAllowList, hs, hne]

/-- C1 witness: the amended agreement applied at a concrete environment
and origin. -/
theorem cors_ws_agreement_amended_witness :
    corsOriginAllowed (Env.mk none none none) (some "http://localhost:3000")
      = validateWebSocketOrigin (Env.mk none none none) (some "http://localhost:3000") :=
  (cors_ws_agreement_amended (Env.mk none none none)
    (some "http://localhost:3000")).1 (by decide)

/-- C2 counterexample: a present-but-empty origin refutes the claim as
stated: in production with `ALLOWED_ORIGINS` unset,
`validateWebSocketOrigin` allows `""`, while the claimed formula
(member of the allow-list, or dev mode and contains "localhost")
rejects it. -/
theorem ws_empty_origin_counterexample :
    validateWebSocketOrigin (Env.mk (some "production") none none) (some "") = true
    ∧ specOriginAllowed
        (resolveAllowList (Env.mk (some "production") none none).allowedOrigins
          wsDefaultOrigins)
        (!isProduction (Env.mk (some "production") none none)) (some "") = false :=
  ⟨rfl, rfl⟩

/-- C2 amended: an absent or empty origin is allowed; any other origin
is allowed iff it is a literal member of the resolved allow-list, or
the development-mode flag is set and it contains "localhost". -/
theorem ws_origin_amended :
    ∀ (e : Env) (o : Option String),
      validateWebSocketOrigin e o
        = specOriginAllowedAmended (resolveAllowList e.allowedOrigins wsDefaultOrigins)
            (!isProduction e) o := by
  intro e o
  cases o <;> rfl

/-- C10: the empty-string origin is treated exactly like an absent
origin by both the CORS callback and `validateWebSocketOrigin`: both
are allowed in every environment and for every allow-list. -/
theorem empty_origin_allowed :
    ∀ e : Env,
      corsOriginAllowed e none = true
      ∧ validateWebSocketOrigin e none = true
      ∧ corsOriginAllowed e (some "") = true
      ∧ validateWebSocketOrigin e (some "") = true :=
  fun _ => ⟨rfl, rfl, rfl, rfl⟩

/-! ## Claim theorems: rate-limit policies -/

/-- C5: the registry holds the three stated policies: api has a
15-minute window, limit 100, and skips exactly when the path starts
with `/api/admin` and the session is authenticated; login has a
15-minute window, default limit 5, and skips exactly when the session
is authenticated; form has a 1-minute window, limit 3 and no skip
predicate. -/
theorem rateLimit_policies :
    apiPolicy.windowMs = 15 * 60 * 1000
    ∧ apiPolicy.maxReq = 100
    ∧ apiPolicy.skip = some apiSkip
    ∧ (∀ r : ReqCtx,
        apiSkip r = true ↔
          (strStartsWith r.path "/api/admin" = true ∧ sessionAuth r = true))
    ∧ (∀ e : Env, (loginPolicy e).windowMs = 15 * 60 * 1000)
    ∧ (loginPolicy (Env.mk none none none)).maxReq = 5
    ∧ (∀ e : Env, (loginPolicy e).skip = some loginSkip)
    ∧ (∀ r : ReqCtx, loginSkip r = sessionAuth r)
    ∧ (∀ r : ReqCtx,
        sessionAuth r = true ↔ ∃ s, r.session = some s ∧ s.authenticated = true)
    ∧ formPolicy.windowMs = 60 * 1000
    ∧ formPolicy.maxReq = 3
    ∧ formPolicy.skip = none := by
  refine ⟨rfl, rfl, rfl, ?_, fun _ => rfl, rfl, fun _ => rfl, fun _ => rfl, ?_,
    rfl, rfl, rfl⟩
  · intro r
    simp [apiSkip, Bool.and_eq_true]
  · intro r
    cases h : r.session with
    | none => simp [sessionAuth, h]
    | some s => simp [sessionAuth, h]

/-- C5 witness: the api skip biconditional applied at a concrete
authenticated admin request, and the login default limit at the unset
environment. -/
theorem rateLimit_policies_witness :
    apiSkip (ReqCtx.mk "/api/admin/users" (some (SessionData.mk true))) = true :=
  (rateLimit_policies.2.2.2.1
    (ReqCtx.mk "/api/admin/users" (some (SessionData.mk true)))).mpr
    ⟨by decide, rfl⟩

/-- C6 counterexample: the unparsable value `"abc"` for
`MAX_LOGIN_ATTEMPTS` does not fail at startup: `parseInt` yields NaN,
`NaN || 5` yields 5, and a running login limiter with limit 5 is
produced. -/
theorem login_limit_unparsable_counterexample :
    jsParseInt "abc" = none
    ∧ (loginPolicy (Env.mk none none (some "abc"))).maxReq = 5
    ∧ loginPolicy (Env.mk none none (some "abc")) = loginPolicy (Env.mk none none none) :=
  ⟨rfl, rfl, rfl⟩

/-- C6 amended: for every value of `MAX_LOGIN_ATTEMPTS` that does not
parse as a number, construction succeeds and silently falls back to the
default limit 5 (there is no startup failure path). -/
theorem login_limit_unparsable_amended :
    ∀ (e : Env) (s : String), e.maxLoginAttempts = some s → jsParseInt s = none →
      (loginPolicy e).maxReq = 5 := by
  intro e s hs hp
  simp [loginPolicy, loginMax, hs, hp]

/-- C6 witness: the amended fallback applied at the concrete
environment `MAX_LOGIN_ATTEMPTS = "not-a-number"`. -/
theorem login_limit_unparsable_amended_witness :
    (loginPolicy (Env.mk none none (some "not-a-number"))).maxReq = 5 :=
  login_limit_unparsable_amended (Env.mk none none (some "not-a-number"))
    "not-a-number" rfl rfl

/-- C7: every rejection handler responds with status 429; the api and
login handlers produce a body with an `error` string and a `retryAfter`
string and no `success` field, while the form handler produces a body
with `success: false` and an `error` string and no `retryAfter`
field. -/
theorem rejection_handlers_shape :
    apiPolicy.handler = apiHandler
    ∧ (∀ e : Env, (loginPolicy e).handler = loginHandler)
    ∧ formPolicy.handler = formHandler
    ∧ apiHandler.status = 429
    ∧ loginHandler.status = 429
    ∧ formHandler.status = 429
    ∧ apiHandler.body.error.isSome = true
    ∧ apiHandler.body.retryAfter.isSome = true
    ∧ apiHandler.body.success = none
    ∧ loginHandler.body.error.isSome = true
    ∧ loginHandler.body.retryAfter.isSome = true
    ∧ loginHandler.body.success = none
    ∧ formHandler.body.success = some false
    ∧ formHandler.body.error.isSome = true
    ∧ formHandler.body.retryAfter = none :=
  ⟨rfl, fun _ => rfl, rfl, rfl, rfl, rfl, rfl, rfl, rfl, rfl, rfl, rfl, rfl,
    rfl, rfl⟩

end AJK
